import Mathlib

/-!
Verification of `bulk_sms1.py` (bulk SMS sender driving Google Messages
over ADB).  The development shallowly embeds the script's functions:

* pure input loading (`get_phone_numbers`, `get_message`) is embedded as
  total Lean functions over an `Option (List String)` model of a text
  file (`none` = the file does not exist, `some lines` = its lines with
  trailing newlines removed); `sys.exit(n)` becomes `Except.error n`;
* the external `phonenumbers` library is an oracle
  `parse : String → Option String` (`none` = `NumberParseException`,
  `some e164` = the E164 formatting of the parsed number);
* the device-facing functions (`send_sms`, `go_back_to_main_screen`,
  `delete_last_sms`) are embedded as labelled-trace functions: every
  device interaction of the source (dump, element lookup, touch, shell
  key event, text injection, sleep) emits one `Act` labelled by its
  source location, and the outcome of each fragile lookup is supplied by
  an environment record; a Python exception thrown by the device layer
  is modelled by an `exnAfter` cutoff that aborts the surrounding `try`
  block after a given number of emitted actions;
* the orchestrator `main` is embedded at the granularity of its loop
  body (`processRecipient`, `mainLoop`, `main_run`), with the verified
  device-level functions supplying the send outcome per recipient.
-/

namespace BulkSms

/-! ## Python string primitives used by the script -/

/-- Whitespace recognised by Python's `str.strip()`. -/
def isSpaceChar (c : Char) : Bool :=
  c = ' ' || c = '\t' || c = '\n' || c = '\r' || c = '\x0b' || c = '\x0c'

/-- Python's `str.strip()`: drop whitespace from both ends. -/
def pyStrip (s : String) : String :=
  String.mk (((s.toList.dropWhile isSpaceChar).reverse.dropWhile isSpaceChar).reverse)

/-- Lexicographic (code-point) order on character lists, as Python compares
strings. -/
def lexLe : List Char → List Char → Bool
  | [], _ => true
  | _ :: _, [] => false
  | a :: as, b :: bs =>
    a.toNat < b.toNat || (a.toNat = b.toNat && lexLe as bs)

/-- Python's `<=` on strings (lexicographic by code point). -/
def strLe (a b : String) : Bool := lexLe a.toList b.toList

/-- `strLe` as a relation, for `List.insertionSort`. -/
def strLeP (a b : String) : Prop := strLe a b = true

instance : DecidableRel strLeP := fun a b => instDecidableEqBool (strLe a b) true

/-- Python's `sorted` on strings: a sort with respect to `strLe`. -/
def pySorted (l : List String) : List String := List.insertionSort strLeP l

/-- Python's `s.replace('+', '')`: remove every `'+'`. -/
def stripPlus (s : String) : String := String.mk (s.toList.filter (fun c => c ≠ '+'))

/-- Python's `s[-10:]`: the last ten characters (the whole string when
shorter). -/
def lastTen (s : String) : String := String.mk ((s.toList.reverse.take 10).reverse)

/-- Whether `pat` occurs at the head of `l`. -/
def hasLead : List Char → List Char → Bool
  | [], _ => true
  | _ :: _, [] => false
  | a :: as, b :: bs => a = b && hasLead as bs

/-- Whether `pat` occurs contiguously somewhere in `l`: Python's
`pat in s` on strings. -/
def hasSeq (pat : List Char) : List Char → Bool
  | [] => hasLead pat []
  | c :: t => hasLead pat (c :: t) || hasSeq pat t

/-- Python's substring test `needle in hay`. -/
def strContains (hay needle : String) : Bool := hasSeq needle.toList hay.toList

/-! ## Input Loader (`get_phone_numbers`, `get_message`)

A text file is `Option (List String)`: `none` when opening raises
`FileNotFoundError`, otherwise the file's lines. -/

/-- The multiset of E164 strings collected by the loop of
`get_phone_numbers`: each line is stripped, blank lines are skipped, and a
line whose parse fails (`parse` returns `none`, the model of
`NumberParseException`) is dropped. -/
def parsedNums (parse : String → Option String) (lines : List String) : List String :=
  lines.filterMap fun line =>
    if pyStrip line = "" then none else parse (pyStrip line)

/-- `get_phone_numbers` (bulk_sms1.py lines 64-88): read `numbers.txt`,
normalise each line through the `phonenumbers` oracle into E164, collect
into a set, and return the sorted list.  `sys.exit(1)` on a missing file,
`sys.exit(2)` when no valid number remains.  The Python `set` followed by
`sorted` is embedded as `dedup` followed by `pySorted`. -/
def get_phone_numbers (parse : String → Option String) (file : Option (List String)) :
    Except Nat (List String) :=
  match file with
  | none => .error 1
  | some lines =>
    let phone_numbers := parsedNums parse lines
    if phone_numbers = [] then .error 2
    else .ok (pySorted phone_numbers.dedup)

/-- `get_message` (bulk_sms1.py lines 91-101): read the FIRST line of
`content.txt` (`f.readline()`, which yields `""` on an empty file), strip
it, `sys.exit(3)` when the stripped line is empty, `sys.exit(1)` on a
missing file. -/
def get_message (file : Option (List String)) : Except Nat String :=
  match file with
  | none => .error 1
  | some lines =>
    let line := pyStrip (lines.headD "")
    if line = "" then .error 3 else .ok line

/-- The claim's reading of `loadMessageBody` for C5 only: the first
NON-BLANK line of the file, to be compared with what `get_message`
actually reads (the first line). -/
def firstNonBlankLine (lines : List String) : Option String :=
  (lines.map pyStrip).find? (fun l => l ≠ "")

/-- The startup sequence of `main` (bulk_sms1.py lines 350-351):
`get_phone_numbers` then `get_message`, each `sys.exit` aborting the
process at once. -/
def startup (parse : String → Option String)
    (numbersFile contentFile : Option (List String)) :
    Except Nat (List String × String) :=
  match get_phone_numbers parse numbersFile with
  | .error c => .error c
  | .ok nums =>
    match get_message contentFile with
    | .error c => .error c
    | .ok msg => .ok (nums, msg)

/-! ## Device actions

Every interaction of the script with the device emits one `Act`, labelled
by the source statement that performs it.  Sleeps carry milliseconds
(`time.sleep(0.5)` = `sleep 500`). -/

inductive Act where
  | dump
  | findStartChatById
  | findStartChatByText
  | touchStartChat
  | findContactField
  | touchContactField
  | keySelectAll
  | typeRecipient (s : String)
  | keyEnterProceed
  | findSuggestionList
  | findClickables
  | touchSuggestion (t : String)
  | keyEnterNoMatch
  | typeMessage (s : String)
  | findSendButton
  | touchSendButton
  | keyEnterSendFallback
  | keyBack
  | findBackButton
  | touchBackButton
  | findLastChat
  | longPressLastChat
  | findDeleteButton
  | touchDeleteButton
  | findConfirmButton
  | touchConfirmButton
  | sleep (ms : Nat)
deriving DecidableEq, Repr

/-! ## Message Composer (`send_sms`) -/

/-- What the device answers during one attempt of `send_sms`:  the outcome
of each fragile lookup, the texts of the clickable elements scanned for a
contact suggestion, and `exnAfter = some k`, the model of a Python
exception thrown by the device layer once `k` actions of the attempt have
been emitted (no exception when `k` is not reached). -/
structure AttemptEnv where
  startChatById : Bool := true
  startChatByText : Bool := true
  contactField : Bool := true
  suggestionList : Bool := false
  clickableTexts : List String := []
  sendButton : Bool := true
  exnAfter : Option Nat := none
deriving Repr

/-- How one iteration of the retry loop of `send_sms` ends: `success` =
`return True`; `notFound` = a guarded lookup failed and the loop
`continue`s after a 2 s wait; `exn` = an exception reached the `except`
clause. -/
inductive AttemptResult where
  | success
  | notFound
  | exn
deriving DecidableEq, Repr

/-- The predicate of the suggestion scan (bulk_sms1.py line 223): the
element has text, and the text contains the last ten characters of the
phone number or the label `"Send to"`. -/
def suggestionMatches (phone_number t : String) : Bool :=
  t ≠ "" && (strContains t (lastTen phone_number) || strContains t "Send to")

/-- One iteration of the `send_sms` retry loop with no exception
(bulk_sms1.py lines 172-263): the emitted actions and how the iteration
ends.  Every branch follows the source: start-chat lookup by id with a
text fallback, contact-field lookup, recipient entry (select-all, raw text
with `'+'` stripped, Enter), the optional suggestion scan, message entry,
and — unless `draft` — the send-button lookup with the Enter fallback. -/
def attemptCore (env : AttemptEnv) (phone_number message : String) (draft : Bool) :
    List Act × AttemptResult :=
  let t0 := [Act.dump, Act.findStartChatById]
  if env.startChatById || (env.startChatByText) then
    let t1 := t0 ++ (if env.startChatById then [] else [Act.findStartChatByText])
      ++ [Act.touchStartChat, Act.sleep 3000, Act.dump, Act.findContactField]
    if env.contactField then
      let t2 := t1 ++ [Act.touchContactField, Act.sleep 1000, Act.keySelectAll,
        Act.sleep 500, Act.typeRecipient (stripPlus phone_number), Act.sleep 3000,
        Act.keyEnterProceed, Act.sleep 3000, Act.dump, Act.findSuggestionList]
      let t3 := t2 ++
        (if env.suggestionList then
          [Act.findClickables] ++
          (match env.clickableTexts.find? (suggestionMatches phone_number) with
            | some t => [Act.touchSuggestion t, Act.sleep 3000]
            | none => [Act.keyEnterNoMatch, Act.sleep 3000])
         else [])
      let t4 := t3 ++ [Act.sleep 2000, Act.dump, Act.typeMessage message, Act.sleep 2000]
      let t5 := t4 ++
        (if draft then []
         else [Act.dump, Act.findSendButton]
           ++ (if env.sendButton then [Act.touchSendButton] else [Act.keyEnterSendFallback])
           ++ [Act.sleep 3000])
      (t5, .success)
    else (t1 ++ [Act.sleep 2000], .notFound)
  else (t0 ++ [Act.findStartChatByText, Act.sleep 2000], .notFound)

/-- One iteration of the retry loop with the exception model applied: when
the environment throws after `k` emitted actions (and the iteration would
have emitted more than `k`), the iteration's trace is cut there and the
`except` clause is reached. -/
def runAttempt (env : AttemptEnv) (phone_number message : String) (draft : Bool) :
    List Act × AttemptResult :=
  let core := attemptCore env phone_number message draft
  match env.exnAfter with
  | none => core
  | some k => if k < core.1.length then (core.1.take k, .exn) else core

/-- The `except` clause's recovery of a non-final attempt (bulk_sms1.py
lines 267-274): wait 2 s, three hardware back keys with 1 s waits, wait
2 s. -/
def retryUnwind : List Act :=
  [Act.sleep 2000, Act.keyBack, Act.sleep 1000, Act.keyBack, Act.sleep 1000,
   Act.keyBack, Act.sleep 1000, Act.sleep 2000]

/-- `max_retries` of `send_sms` (bulk_sms1.py line 169). -/
def max_retries : Nat := 3

/-- The message of the `RuntimeError` raised when every attempt failed
(bulk_sms1.py line 277). -/
def failMsg (phone_number : String) : String :=
  "Failed to send SMS to " ++ phone_number ++ " after "
    ++ toString max_retries ++ " attempts"

/-- The retry loop of `send_sms`, from attempt number `attempt` with `rem`
iterations left.  Returns the per-attempt traces (each including the
attempt's `except`-clause actions) paired with how the attempt ended, and
the function's result: `.ok ()` for `return True`, `.error msg` for the
final `raise RuntimeError`.  On the last attempt (`attempt ≥ max_retries
- 1`) the `except` clause skips the back-key recovery. -/
def send_sms_go (envs : Nat → AttemptEnv) (phone_number message : String) (draft : Bool) :
    Nat → Nat → List (List Act × AttemptResult) × Except String Unit
  | _, 0 => ([], .error (failMsg phone_number))
  | attempt, rem + 1 =>
    let a := runAttempt (envs attempt) phone_number message draft
    match a.2 with
    | .success => ([(a.1, .success)], .ok ())
    | .notFound =>
      let rest := send_sms_go envs phone_number message draft (attempt + 1) rem
      ((a.1, .notFound) :: rest.1, rest.2)
    | .exn =>
      let tr := if attempt < max_retries - 1 then a.1 ++ retryUnwind else a.1
      let rest := send_sms_go envs phone_number message draft (attempt + 1) rem
      ((tr, .exn) :: rest.1, rest.2)

/-- `send_sms` (bulk_sms1.py lines 167-277): run the retry loop over the
per-attempt environments `envs`, starting at attempt 0 with `max_retries`
iterations available. -/
def send_sms (envs : Nat → AttemptEnv) (phone_number message : String) (draft : Bool) :
    List (List Act × AttemptResult) × Except String Unit :=
  send_sms_go envs phone_number message draft 0 max_retries

/-! ## Screen Navigator (`go_back_to_main_screen`) -/

/-- What the device answers during one call of `go_back_to_main_screen`:
whether a visible "Back" affordance is found at each of the two
navigations, whether the start-chat landmark is found (by id, or by the
text fallback), and the exception cutoff as in `AttemptEnv`. -/
structure NavEnv where
  back1 : Bool := true
  back2 : Bool := true
  startChatById : Bool := true
  startChatByText : Bool := false
  exnAfter : Option Nat := none
deriving Repr

/-- The `try` body of `go_back_to_main_screen` (bulk_sms1.py lines
113-154): two back navigations — each a tap on a found "Back" element or
a hardware back key — then a fresh dump and the landmark check by id with
a text fallback.  Returns whether the landmark was found. -/
def goBackCore (env : NavEnv) : List Act × Bool :=
  let nav1 := [Act.dump, Act.findBackButton]
    ++ (if env.back1 then [Act.touchBackButton] else [Act.keyBack]) ++ [Act.sleep 2000]
  let nav2 := nav1 ++ [Act.dump, Act.findBackButton]
    ++ (if env.back2 then [Act.touchBackButton] else [Act.keyBack]) ++ [Act.sleep 2000]
  let chk := nav2 ++ [Act.dump, Act.findStartChatById]
    ++ (if env.startChatById then [] else [Act.findStartChatByText])
  (chk, env.startChatById || env.startChatByText)

/-- `go_back_to_main_screen` (bulk_sms1.py lines 110-164): the `try` body,
except that an exception cuts it off and the `except` clause issues two
hardware back keys and returns `False`.  The function never raises: its
result type is a plain `Bool`. -/
def go_back_to_main_screen (env : NavEnv) : List Act × Bool :=
  let core := goBackCore env
  match env.exnAfter with
  | none => core
  | some k =>
    if k < core.1.length then
      (core.1.take k ++ [Act.keyBack, Act.sleep 2000, Act.keyBack, Act.sleep 2000], false)
    else core

/-! ## Conversation Cleanup (`delete_last_sms`) -/

/-- What the device answers during one call of `delete_last_sms`. -/
structure DelEnv where
  lastChat : Bool := true
  deleteButton : Bool := true
  confirmButton : Bool := true
  exnAfter : Option Nat := none
deriving Repr

/-- How `delete_last_sms` returns: the conversation was deleted, or one of
the three warning paths for a missing affordance, or the `except` clause's
warning.  Every constructor is a normal return — the source never
re-raises. -/
inductive DelOutcome where
  | deleted
  | warnNoChat
  | warnNoDelete
  | warnNoConfirm
  | warnError
deriving DecidableEq, Repr

/-- The `try` body of `delete_last_sms` (bulk_sms1.py lines 283-313):
find the topmost conversation (warn and return when absent), long-press
it, find and tap the delete affordance (warn when absent), find and tap
the confirmation (warn when absent). -/
def deleteCore (env : DelEnv) : List Act × DelOutcome :=
  let t0 := [Act.dump, Act.findLastChat]
  if env.lastChat then
    let t1 := t0 ++ [Act.longPressLastChat, Act.sleep 2000, Act.dump, Act.findDeleteButton]
    if env.deleteButton then
      let t2 := t1 ++ [Act.touchDeleteButton, Act.sleep 1000, Act.dump, Act.findConfirmButton]
      if env.confirmButton then
        (t2 ++ [Act.touchConfirmButton, Act.sleep 2000], .deleted)
      else (t2, .warnNoConfirm)
    else (t1, .warnNoDelete)
  else (t0, .warnNoChat)

/-- `delete_last_sms` (bulk_sms1.py lines 280-316): the `try` body with
the exception model; the `except` clause only logs.  The function never
raises: every path ends in a `DelOutcome`. -/
def delete_last_sms (env : DelEnv) : List Act × DelOutcome :=
  let core := deleteCore env
  match env.exnAfter with
  | none => core
  | some k => if k < core.1.length then (core.1.take k, .warnError) else core

/-! ## Run Orchestrator (`main`) -/

/-- The device behaviour offered to one recipient's iteration of the main
loop: the per-attempt environments for `send_sms` and the environments for
the recovery navigation and the optional deletion. -/
structure RecipEnv where
  send : Nat → AttemptEnv
  nav : NavEnv := {}
  del : DelEnv := {}

/-- The orchestrator's per-recipient events (bulk_sms1.py lines 384-409),
at the granularity of the loop body: the send call's outcome, the
return-to-home call, the optional deletion, the inter-message delay (in
seconds), and the 1-second pause of the recovery path. -/
inductive MainEv where
  | sendOk (phone_number : String)
  | sendFailed (phone_number : String)
  | goBack
  | deleteConv
  | delayWait (secs : Nat)
  | recoverPause
deriving DecidableEq, Repr

/-- One iteration of the main loop (bulk_sms1.py lines 384-409): call
`send_sms`; on success count it, return to the main screen, delete the
conversation when `delete` is set, and wait `delay` seconds unless this
is the last recipient; when `send_sms` raises, log the failure, recover
to the main screen and pause one second.  Only `send_sms` can raise
inside the `try`: `go_back_to_main_screen` and `delete_last_sms` catch
all their exceptions (see their definitions). -/
def processRecipient (draft delete : Bool) (delay : Nat) (phone_number message : String)
    (env : RecipEnv) (isLast : Bool) : List MainEv × Bool :=
  match (send_sms env.send phone_number message draft).2 with
  | .ok _ =>
    ([MainEv.sendOk phone_number, MainEv.goBack]
      ++ (if delete then [MainEv.deleteConv] else [])
      ++ (if isLast then [] else [MainEv.delayWait delay]), true)
  | .error _ =>
    ([MainEv.sendFailed phone_number, MainEv.goBack, MainEv.recoverPause], false)

/-- The main loop over the recipients, starting at index `i` with the
device behaviour `envs i` for the recipient at index `i`.  Returns the
events and the final `success_count`. -/
def mainLoop (draft delete : Bool) (delay : Nat) (message : String)
    (envs : Nat → RecipEnv) : List String → Nat → List MainEv × Nat
  | [], _ => ([], 0)
  | phone_number :: rest, i =>
    let p := processRecipient draft delete delay phone_number message (envs i) rest.isEmpty
    let r := mainLoop draft delete delay message envs rest (i + 1)
    (p.1 ++ r.1, (if p.2 then 1 else 0) + r.2)

/-- `main` (bulk_sms1.py lines 324-425): startup validation
(`get_phone_numbers`, then `get_message`, each of which exits the
process), then the outer `try`: connect to the device (`connectOk =
false` models a connection failure reaching the outer `except`, which
exits with code 1) and run the loop.  On a normal run returns the events,
the final `success_count` and the number of recipients. -/
def main_run (parse : String → Option String)
    (numbersFile contentFile : Option (List String)) (connectOk : Bool)
    (draft delete : Bool) (delay : Nat) (envs : Nat → RecipEnv) :
    Except Nat (List MainEv × Nat × Nat) :=
  match startup parse numbersFile contentFile with
  | .error c => .error c
  | .ok (phone_numbers, message) =>
    if connectOk then
      let r := mainLoop draft delete delay message envs phone_numbers 0
      .ok (r.1, r.2, phone_numbers.length)
    else .error 1

/-! ## Helper notions used by the statements and witnesses -/

/-- Whether the recipient at index `p.1` with number `p.2` is sent
successfully by `send_sms` under the run's device behaviour. -/
def sendOkFor (envs : Nat → RecipEnv) (message : String) (draft : Bool)
    (p : Nat × String) : Bool :=
  match (send_sms (envs p.1).send p.2 message draft).2 with
  | .ok _ => true
  | .error _ => false

/-- Orchestrator events that record one `send_sms` call. -/
def isSendEvent : MainEv → Bool
  | .sendOk _ => true
  | .sendFailed _ => true
  | _ => false

/-- The number of back-navigation actions (taps on a Back affordance or
hardware back keys) a navigator trace issues before its first landmark
check. -/
def backNavBefore (tr : List Act) : Nat :=
  ((tr.takeWhile fun a => a ≠ Act.findStartChatById).count Act.touchBackButton)
    + ((tr.takeWhile fun a => a ≠ Act.findStartChatById).count Act.keyBack)

/-- `block` occurs contiguously inside `evs`. -/
def containsBlock (block evs : List MainEv) : Prop :=
  ∃ s t, s ++ block ++ t = evs

/-- A parse oracle for concrete witnesses: accepts `"123"` only. -/
def parseW : String → Option String :=
  fun s => if s = "123" then some "+123" else none

/-- A parse oracle for concrete witnesses: every stripped line is already
canonical. -/
def parseId : String → Option String := fun s => some s

/-- An attempt environment whose start-chat lookup fails both by id and by
text. -/
def envNoStartChat : AttemptEnv :=
  { startChatById := false, startChatByText := false }

/-- An attempt environment that throws before its first action. -/
def envThrow : AttemptEnv := { exnAfter := some 0 }

/-- A per-recipient device behaviour for concrete witnesses: every
recipient except the one at index 2 sends cleanly; recipient 2 never finds
the start-chat affordance and fails all three attempts. -/
def envsOneFailing : Nat → RecipEnv :=
  fun i => { send := fun _ => if i = 2 then envNoStartChat else {} }

/-! ## Lemmas about the lexicographic order and Python's `sorted` -/

theorem lexLe_trans : ∀ a b c : List Char,
    lexLe a b = true → lexLe b c = true → lexLe a c = true
  | [], _, _, _, _ => rfl
  | _ :: _, [], _, h, _ => by simp [lexLe] at h
  | _ :: _, _ :: _, [], _, h => by simp [lexLe] at h
  | a :: as, b :: bs, c :: cs, h1, h2 => by
    simp only [lexLe, Bool.or_eq_true, Bool.and_eq_true, decide_eq_true_eq] at h1 h2 ⊢
    rcases h1 with h1 | ⟨h1e, h1r⟩ <;> rcases h2 with h2 | ⟨h2e, h2r⟩
    · exact Or.inl (h1.trans h2)
    · exact Or.inl (h2e ▸ h1)
    · exact Or.inl (h1e ▸ h2)
    · exact Or.inr ⟨h1e.trans h2e, lexLe_trans as bs cs h1r h2r⟩

theorem lexLe_total : ∀ a b : List Char, lexLe a b = true ∨ lexLe b a = true
  | [], _ => Or.inl rfl
  | _ :: _, [] => Or.inr rfl
  | a :: as, b :: bs => by
    simp only [lexLe, Bool.or_eq_true, Bool.and_eq_true, decide_eq_true_eq]
    rcases Nat.lt_trichotomy a.toNat b.toNat with h | h | h
    · exact Or.inl (Or.inl h)
    · rcases lexLe_total as bs with ih | ih
      · exact Or.inl (Or.inr ⟨h, ih⟩)
      · exact Or.inr (Or.inr ⟨h.symm, ih⟩)
    · exact Or.inr (Or.inl h)

instance : IsTrans String strLeP :=
  ⟨fun _ _ _ h1 h2 => lexLe_trans _ _ _ h1 h2⟩

instance : IsTotal String strLeP :=
  ⟨fun a b => lexLe_total a.toList b.toList⟩

theorem pySorted_sorted (l : List String) : List.Sorted strLeP (pySorted l) :=
  List.sorted_insertionSort strLeP l

theorem pySorted_perm (l : List String) : (pySorted l).Perm l :=
  List.perm_insertionSort strLeP l

/-! ## C3 — `get_phone_numbers` on a file with a parseable line -/

/-- C3: for every input file containing at least one line parseable as a
phone number, `get_phone_numbers` returns a non-empty, duplicate-free list
of E164 identifiers (each the oracle's canonical form of some stripped
line of the file) sorted ascending in the lexicographic order, and lines
that fail parsing are dropped without any error. -/
theorem C3_loadRecipients (parse : String → Option String) (lines : List String)
    (l₀ : String) (h₀ : l₀ ∈ lines) (hb : pyStrip l₀ ≠ "")
    (hp : (parse (pyStrip l₀)).isSome = true) :
    ∃ r, get_phone_numbers parse (some lines) = .ok r ∧ r ≠ [] ∧ r.Nodup
      ∧ List.Sorted strLeP r
      ∧ ∀ x ∈ r, ∃ l ∈ lines, pyStrip l ≠ "" ∧ parse (pyStrip l) = some x := by
  have hne : parsedNums parse lines ≠ [] := by
    intro hnil
    obtain ⟨v, hv⟩ := Option.isSome_iff_exists.mp hp
    have hmem : v ∈ parsedNums parse lines := by
      refine List.mem_filterMap.mpr ⟨l₀, h₀, ?_⟩
      simp [hb, hv]
    rw [hnil] at hmem
    exact absurd hmem (List.not_mem_nil v)
  refine ⟨pySorted (parsedNums parse lines).dedup, ?_, ?_, ?_, pySorted_sorted _, ?_⟩
  · simp [get_phone_numbers, hne]
  · intro hnil
    have : (parsedNums parse lines).dedup.Perm [] := hnil ▸ (pySorted_perm _).symm
    exact hne ((List.dedup_eq_nil _).mp this.eq_nil)
  · exact (pySorted_perm _).symm.nodup (List.nodup_dedup _)
  · intro x hx
    have : x ∈ parsedNums parse lines :=
      List.mem_dedup.mp (((pySorted_perm _).mem_iff).mp hx)
    obtain ⟨l, hl, hif⟩ := List.mem_filterMap.mp this
    by_cases hblank : pyStrip l = ""
    · rw [if_pos hblank] at hif
      exact absurd hif (by simp)
    · rw [if_neg hblank] at hif
      exact ⟨l, hl, hblank, hif⟩

/-- Witness for C3 at a concrete file: one parseable line `" 123 "`. -/
theorem C3_loadRecipients_witness :
    ∃ r, get_phone_numbers parseW (some [" 123 "]) = .ok r ∧ r ≠ [] ∧ r.Nodup
      ∧ List.Sorted strLeP r
      ∧ ∀ x ∈ r, ∃ l ∈ [" 123 "], pyStrip l ≠ "" ∧ parseW (pyStrip l) = some x :=
  C3_loadRecipients parseW [" 123 "] " 123 " (by simp) (by decide) (by decide)

/-! ## C4 — startup exit codes -/

theorem get_message_none : get_message none = .error 1 := rfl

theorem get_message_first_blank (cl : List String) (h : pyStrip (cl.headD "") = "") :
    get_message (some cl) = .error 3 := by
  simp only [get_message]
  rw [if_pos h]

theorem get_message_first_ok (cl : List String) (h : pyStrip (cl.headD "") ≠ "") :
    get_message (some cl) = .ok (pyStrip (cl.headD "")) := by
  simp only [get_message]
  rw [if_neg h]

/-- C4: the startup exit codes are exactly 1 (a required input file is
missing — either one), 2 (the numbers file yields zero parseable numbers),
and 3 (the content file's first line strips to empty); each condition
aborts startup at once, and no other code is ever produced. -/
theorem C4_exit_codes (parse : String → Option String)
    (anyContent : Option (List String))
    (badLines goodLines cBlank : List String)
    (hbad : parsedNums parse badLines = [])
    (hgood : parsedNums parse goodLines ≠ [])
    (hcb : pyStrip (cBlank.headD "") = "") :
    startup parse none anyContent = .error 1
    ∧ startup parse (some badLines) anyContent = .error 2
    ∧ startup parse (some goodLines) none = .error 1
    ∧ startup parse (some goodLines) (some cBlank) = .error 3
    ∧ ∀ nf cf, (∃ v, startup parse nf cf = .ok v)
        ∨ startup parse nf cf = .error 1
        ∨ startup parse nf cf = .error 2
        ∨ startup parse nf cf = .error 3 := by
  refine ⟨rfl, ?_, ?_, ?_, ?_⟩
  · simp [startup, get_phone_numbers, hbad]
  · simp [startup, get_phone_numbers, hgood, get_message_none]
  · simp [startup, get_phone_numbers, hgood, get_message_first_blank cBlank hcb]
  · intro nf cf
    cases nf with
    | none => exact Or.inr (Or.inl rfl)
    | some lines =>
      by_cases hp : parsedNums parse lines = []
      · exact Or.inr (Or.inr (Or.inl (by simp [startup, get_phone_numbers, hp])))
      · cases cf with
        | none =>
          exact Or.inr (Or.inl (by simp [startup, get_phone_numbers, hp, get_message_none]))
        | some cl =>
          by_cases hc : pyStrip (cl.headD "") = ""
          · exact Or.inr (Or.inr (Or.inr (by
              simp [startup, get_phone_numbers, hp, get_message_first_blank cl hc])))
          · refine Or.inl ⟨(pySorted (parsedNums parse lines).dedup, pyStrip (cl.headD "")), ?_⟩
            simp [startup, get_phone_numbers, hp, get_message_first_ok cl hc]

/-- Witness for C4 at concrete files: a missing file, a file of
unparseable lines, a good numbers file and a blank-first-line content
file. -/
theorem C4_exit_codes_witness :
    startup parseW none (some ["x"]) = .error 1
    ∧ startup parseW (some ["bogus"]) (some ["x"]) = .error 2
    ∧ startup parseW (some ["123"]) none = .error 1
    ∧ startup parseW (some ["123"]) (some ["  ", "hello"]) = .error 3
    ∧ ∀ nf cf, (∃ v, startup parseW nf cf = .ok v)
        ∨ startup parseW nf cf = .error 1
        ∨ startup parseW nf cf = .error 2
        ∨ startup parseW nf cf = .error 3 :=
  C4_exit_codes parseW (some ["x"]) ["bogus"] ["123"] ["  ", "hello"]
    (by decide) (by decide) (by decide)

/-! ## C5 — `get_message` reads the first line, not the first non-blank
line -/

/-- C5 counterexample: on the file whose lines are `["", "hello"]` the
first non-blank line is `"hello"`, yet `get_message` exits with code 3
instead of returning it — the source reads `f.readline()`, the first
line, and never skips blank lines. -/
theorem C5_counterexample :
    firstNonBlankLine ["", "hello"] = some "hello"
    ∧ get_message (some ["", "hello"]) = .error 3
    ∧ get_message (some ["", "hello"]) ≠ .ok "hello" := by
  refine ⟨by decide, rfl, fun h => ?_⟩
  rw [show get_message (some ["", "hello"]) = .error 3 from rfl] at h
  exact Except.noConfusion h

/-- C5 amended: `get_message` returns the FIRST line of the content file
stripped of surrounding whitespace, ignoring everything after the first
line, whenever that first line is non-blank; when the first line strips to
empty it exits with code 3 even if a later line is non-blank. -/
theorem C5_loadMessageBody (l l' : String) (rest rest' : List String)
    (h : pyStrip l ≠ "") (h' : pyStrip l' = "") :
    get_message (some (l :: rest)) = .ok (pyStrip l)
    ∧ get_message (some (l' :: rest')) = .error 3 := by
  exact ⟨get_message_first_ok (l :: rest) h, get_message_first_blank (l' :: rest') h'⟩

/-- Witness for the amended C5 at concrete files. -/
theorem C5_loadMessageBody_witness :
    get_message (some ["  hi there  ", "ignored"]) = .ok (pyStrip "  hi there  ")
    ∧ get_message (some [" ", "hello"]) = .error 3 :=
  C5_loadMessageBody "  hi there  " " " ["ignored"] ["hello"] (by decide) (by decide)

/-! ## Lemmas about `send_sms` -/

theorem attemptCore_keyBack (env : AttemptEnv) (n m : String) (d : Bool) :
    Act.keyBack ∉ (attemptCore env n m d).1 := by
  unfold attemptCore
  repeat' split
  all_goals simp_all

theorem attemptCore_draft_noSend (env : AttemptEnv) (n m : String) :
    Act.findSendButton ∉ (attemptCore env n m true).1
    ∧ Act.touchSendButton ∉ (attemptCore env n m true).1
    ∧ Act.keyEnterSendFallback ∉ (attemptCore env n m true).1 := by
  unfold attemptCore
  repeat' split
  all_goals simp_all

theorem runAttempt_sub (env : AttemptEnv) (n m : String) (d : Bool) :
    ∀ x ∈ (runAttempt env n m d).1, x ∈ (attemptCore env n m d).1 := by
  intro x hx
  simp only [runAttempt] at hx
  split at hx
  · exact hx
  · split at hx
    · exact List.take_subset _ _ hx
    · exact hx

theorem runAttempt_count_keyBack (env : AttemptEnv) (n m : String) (d : Bool) :
    (runAttempt env n m d).1.count Act.keyBack = 0 :=
  List.count_eq_zero.mpr fun h => attemptCore_keyBack env n m d (runAttempt_sub env n m d _ h)

theorem retryUnwind_count_keyBack : retryUnwind.count Act.keyBack = 3 := by decide

theorem mem_exn_trace {x : Act} {c : Prop} [Decidable c] {l : List Act}
    (h : x ∈ (if c then l ++ retryUnwind else l)) : x ∈ l ∨ x ∈ retryUnwind := by
  split at h
  · exact List.mem_append.mp h
  · exact Or.inl h

theorem send_sms_go_length (envs : Nat → AttemptEnv) (n m : String) (d : Bool) :
    ∀ (rem attempt : Nat), (send_sms_go envs n m d attempt rem).1.length ≤ rem := by
  intro rem
  induction rem with
  | zero => intro attempt; simp [send_sms_go]
  | succ k ih =>
    intro attempt
    rcases hr : (runAttempt (envs attempt) n m d).2
    all_goals simp only [send_sms_go, hr]
    · simp
    · simpa using ih (attempt + 1)
    · simpa using ih (attempt + 1)

theorem send_sms_go_error (envs : Nat → AttemptEnv) (n m : String) (d : Bool) :
    ∀ (rem attempt : Nat) (msg : String),
      (send_sms_go envs n m d attempt rem).2 = .error msg →
      (send_sms_go envs n m d attempt rem).1.length = rem
      ∧ ∀ p ∈ (send_sms_go envs n m d attempt rem).1, p.2 ≠ AttemptResult.success := by
  intro rem
  induction rem with
  | zero => intro attempt msg _; simp [send_sms_go]
  | succ k ih =>
    intro attempt msg h
    rcases hr : (runAttempt (envs attempt) n m d).2
    all_goals simp only [send_sms_go, hr] at h ⊢
    · exact absurd h (by simp)
    · obtain ⟨ih1, ih2⟩ := ih (attempt + 1) msg h
      refine ⟨by simpa using ih1, ?_⟩
      intro p hp
      rcases List.mem_cons.mp hp with hp | hp
      · rw [hp]; simp
      · exact ih2 p hp
    · obtain ⟨ih1, ih2⟩ := ih (attempt + 1) msg h
      refine ⟨by simpa using ih1, ?_⟩
      intro p hp
      rcases List.mem_cons.mp hp with hp | hp
      · rw [hp]; simp
      · exact ih2 p hp

theorem send_sms_go_result (envs : Nat → AttemptEnv) (n m : String) (d : Bool) :
    ∀ (rem attempt : Nat),
      (send_sms_go envs n m d attempt rem).2 = .ok ()
      ∨ (send_sms_go envs n m d attempt rem).2 = .error (failMsg n) := by
  intro rem
  induction rem with
  | zero => intro attempt; exact Or.inr rfl
  | succ k ih =>
    intro attempt
    rcases hr : (runAttempt (envs attempt) n m d).2
    all_goals simp only [send_sms_go, hr]
    · exact Or.inl (by simp)
    · exact ih (attempt + 1)
    · exact ih (attempt + 1)

theorem send_sms_go_ne_nil (envs : Nat → AttemptEnv) (n m : String) (d : Bool)
    (attempt rem : Nat) (h : 0 < rem) :
    (send_sms_go envs n m d attempt rem).1 ≠ [] := by
  rcases rem with _ | k
  · exact absurd h (by simp)
  · rcases hr : (runAttempt (envs attempt) n m d).2
    all_goals simp [send_sms_go, hr]

theorem send_sms_go_exn_entry (envs : Nat → AttemptEnv) (n m : String) (d : Bool) :
    ∀ (rem attempt i : Nat) (tr : List Act),
      attempt + rem = max_retries →
      (send_sms_go envs n m d attempt rem).1.get? i = some (tr, AttemptResult.exn) →
      (attempt + i < max_retries - 1 →
        tr.count Act.keyBack = 3
        ∧ i + 1 < (send_sms_go envs n m d attempt rem).1.length)
      ∧ (¬ attempt + i < max_retries - 1 → tr.count Act.keyBack = 0) := by
  intro rem
  induction rem with
  | zero => intro attempt i tr _ h; simp [send_sms_go] at h
  | succ k ih =>
    intro attempt i tr hrem h
    rcases hr : (runAttempt (envs attempt) n m d).2
    all_goals simp only [send_sms_go, hr] at h ⊢
    · rcases i with _ | j
      · simp at h
      · simp at h
    · rcases i with _ | j
      · simp at h
      · have hj := ih (attempt + 1) j tr (by omega) (by simpa using h)
        constructor
        · intro hlt
          obtain ⟨c, hl⟩ := hj.1 (by omega)
          exact ⟨c, by simpa using Nat.succ_lt_succ hl⟩
        · intro hge
          exact hj.2 (by omega)
    · rcases i with _ | j
      · have h0 : (if attempt < max_retries - 1 then
              (runAttempt (envs attempt) n m d).1 ++ retryUnwind
            else (runAttempt (envs attempt) n m d).1) = tr := by
          simpa using h
        constructor
        · intro hlt
          have hlt' : attempt < max_retries - 1 := by omega
          rw [← h0, if_pos hlt']
          refine ⟨?_, ?_⟩
          · simp [List.count_append, runAttempt_count_keyBack, retryUnwind_count_keyBack]
          · have hk : 0 < k := by
              have hmr : max_retries = 3 := rfl
              omega
            have hne := send_sms_go_ne_nil envs n m d (attempt + 1) k hk
            have hlen : 0 < (send_sms_go envs n m d (attempt + 1) k).1.length :=
              List.length_pos.mpr hne
            simpa using Nat.succ_lt_succ hlen
        · intro hge
          have hge' : ¬ attempt < max_retries - 1 := by omega
          rw [← h0, if_neg hge']
          exact runAttempt_count_keyBack (envs attempt) n m d
      · have hj := ih (attempt + 1) j tr (by omega) (by simpa using h)
        constructor
        · intro hlt
          obtain ⟨c, hl⟩ := hj.1 (by omega)
          exact ⟨c, by simpa using Nat.succ_lt_succ hl⟩
        · intro hge
          exact hj.2 (by omega)

theorem send_sms_go_exn_last (envs : Nat → AttemptEnv) (n m : String) (d : Bool) :
    ∀ (rem attempt i : Nat) (tr : List Act),
      rem ≤ i + 1 →
      (send_sms_go envs n m d attempt rem).1.get? i = some (tr, AttemptResult.exn) →
      (send_sms_go envs n m d attempt rem).2 = .error (failMsg n) := by
  intro rem
  induction rem with
  | zero => intro attempt i tr _ h; simp [send_sms_go] at h
  | succ k ih =>
    intro attempt i tr hle h
    rcases hr : (runAttempt (envs attempt) n m d).2
    all_goals simp only [send_sms_go, hr] at h ⊢
    · rcases i with _ | j
      · simp at h
      · simp at h
    · rcases i with _ | j
      · simp at h
      · exact ih (attempt + 1) j tr (by omega) (by simpa using h)
    · rcases i with _ | j
      · have hk : k = 0 := by omega
        subst hk
        simp [send_sms_go]
      · exact ih (attempt + 1) j tr (by omega) (by simpa using h)

theorem send_sms_go_draft_noSend (envs : Nat → AttemptEnv) (n m : String) :
    ∀ (rem attempt : Nat), ∀ p ∈ (send_sms_go envs n m true attempt rem).1,
      Act.findSendButton ∉ p.1 ∧ Act.touchSendButton ∉ p.1
      ∧ Act.keyEnterSendFallback ∉ p.1 := by
  intro rem
  induction rem with
  | zero => intro attempt p hp; simp [send_sms_go] at hp
  | succ k ih =>
    intro attempt p hp
    have hbase : ∀ x ∈ (runAttempt (envs attempt) n m true).1,
        x ∈ (attemptCore (envs attempt) n m true).1 :=
      runAttempt_sub (envs attempt) n m true
    have hcore := attemptCore_draft_noSend (envs attempt) n m
    rcases hr : (runAttempt (envs attempt) n m true).2
    all_goals simp only [send_sms_go, hr] at hp
    · rcases List.mem_cons.mp hp with hp | hp
      · subst hp
        exact ⟨fun hx => hcore.1 (hbase _ hx), fun hx => hcore.2.1 (hbase _ hx),
          fun hx => hcore.2.2 (hbase _ hx)⟩
      · simp at hp
    · rcases List.mem_cons.mp hp with hp | hp
      · subst hp
        exact ⟨fun hx => hcore.1 (hbase _ hx), fun hx => hcore.2.1 (hbase _ hx),
          fun hx => hcore.2.2 (hbase _ hx)⟩
      · exact ih (attempt + 1) p hp
    · rcases List.mem_cons.mp hp with hp | hp
      · subst hp
        refine ⟨fun hx => ?_, fun hx => ?_, fun hx => ?_⟩ <;>
          rcases mem_exn_trace hx with hx | hx
        · exact hcore.1 (hbase _ hx)
        · exact absurd hx (by decide)
        · exact hcore.2.1 (hbase _ hx)
        · exact absurd hx (by decide)
        · exact hcore.2.2 (hbase _ hx)
        · exact absurd hx (by decide)
      · exact ih (attempt + 1) p hp

/-! ## Lemmas about the orchestrator loop -/

theorem containsBlock_append_left (pre : List MainEv) {block evs : List MainEv}
    (h : containsBlock block evs) : containsBlock block (pre ++ evs) := by
  obtain ⟨s, t, hst⟩ := h
  exact ⟨pre ++ s, t, by rw [← hst]; simp⟩

theorem mainLoop_spec (draft delete : Bool) (delay : Nat) (message : String)
    (envs : Nat → RecipEnv) :
    ∀ (nums : List String) (i : Nat),
      (mainLoop draft delete delay message envs nums i).2
        = ((nums.enumFrom i).countP (sendOkFor envs message draft))
      ∧ ((mainLoop draft delete delay message envs nums i).1.countP isSendEvent) = nums.length
      ∧ ((mainLoop draft delete delay message envs nums i).1.count MainEv.deleteConv)
        = (if delete then (nums.enumFrom i).countP (sendOkFor envs message draft) else 0)
      ∧ ∀ p ∈ nums.enumFrom i, sendOkFor envs message draft p = false →
          containsBlock [MainEv.sendFailed p.2, MainEv.goBack, MainEv.recoverPause]
            (mainLoop draft delete delay message envs nums i).1 := by
  intro nums
  induction nums with
  | nil => intro i; simp [mainLoop, List.enumFrom]
  | cons num rest ihr =>
    intro i
    obtain ⟨ih1, ih2, ih3, ih4⟩ := ihr (i + 1)
    have hok : sendOkFor envs message draft (i, num)
        = match (send_sms (envs i).send num message draft).2 with
          | .ok _ => true | .error _ => false := rfl
    rcases hs : (send_sms (envs i).send num message draft).2 with msg | u
    · have hokf : sendOkFor envs message draft (i, num) = false := by rw [hok, hs]
      refine ⟨?_, ?_, ?_, ?_⟩
      · simp only [mainLoop, processRecipient, hs]
        simp [List.enumFrom, hokf, ih1]
      · simp only [mainLoop, processRecipient, hs]
        simp [List.countP_append, isSendEvent, ih2]
      · simp only [mainLoop, processRecipient, hs]
        cases delete <;> simp [List.count_append, List.enumFrom, hokf, ih3]
      · intro p hp hpf
        rcases List.mem_cons.mp hp with hp | hp
        · subst hp
          simp only [mainLoop, processRecipient, hs]
          exact ⟨[], (mainLoop draft delete delay message envs rest (i + 1)).1, by simp⟩
        · have hc := ih4 p hp hpf
          simp only [mainLoop, processRecipient, hs]
          exact containsBlock_append_left _ hc
    · have hokt : sendOkFor envs message draft (i, num) = true := by rw [hok, hs]
      refine ⟨?_, ?_, ?_, ?_⟩
      · simp only [mainLoop, processRecipient, hs]
        simp [List.enumFrom, hokt, ih1]
        omega
      · simp only [mainLoop, processRecipient, hs]
        cases delete <;> cases hre : rest.isEmpty <;>
          simp [List.countP_append, isSendEvent, ih2]
      · simp only [mainLoop, processRecipient, hs]
        cases delete <;> cases hre : rest.isEmpty <;>
          simp [List.count_append, List.enumFrom, hokt, ih3] <;> omega
      · intro p hp hpf
        rcases List.mem_cons.mp hp with hp | hp
        · rw [hp, hokt] at hpf
          exact Bool.noConfusion hpf
        · have hc := ih4 p hp hpf
          simp only [mainLoop, processRecipient, hs]
          exact containsBlock_append_left _ hc

/-! ## C1 — the composer retry policy -/

/-- Claim C1: `send_sms` makes at most 3 attempts per recipient and raises
its "failed after 3 attempts" error only after all 3 attempts fail; and in
the simulated environment where the start-chat affordance is absent on
attempts 1 and 2 (by id and by text) and present on attempt 3 with every
later step succeeding, the call returns success on the 3rd attempt without
raising. -/
theorem C1_composer_retry_policy (envs : Nat → AttemptEnv) (n m : String) (d : Bool) :
    (send_sms envs n m d).1.length ≤ max_retries
    ∧ ((send_sms envs n m d).2 = .ok ()
        ∨ ((send_sms envs n m d).2 = .error (failMsg n)
          ∧ (send_sms envs n m d).1.length = max_retries
          ∧ ∀ p ∈ (send_sms envs n m d).1, p.2 ≠ AttemptResult.success))
    ∧ ((send_sms (fun i => if i < 2 then envNoStartChat else {}) "x" "hello" false).1.map
          Prod.snd
        = [AttemptResult.notFound, AttemptResult.notFound, AttemptResult.success]
      ∧ (send_sms (fun i => if i < 2 then envNoStartChat else {}) "x" "hello" false).2
        = .ok ()) := by
  refine ⟨send_sms_go_length envs n m d max_retries 0, ?_, by decide, rfl⟩
  rcases send_sms_go_result envs n m d max_retries 0 with h | h
  · exact Or.inl h
  · obtain ⟨h1, h2⟩ := send_sms_go_error envs n m d max_retries 0 (failMsg n) h
    exact Or.inr ⟨h, h1, h2⟩

/-! ## C6 — the per-attempt exception handler -/

/-- Claim C6 counterexample: in the run where every attempt throws before
its first action, all three attempts end in a caught exception, but the
back-key unwind runs only on the first two — the handler of the final
attempt issues zero back keys, and the call then raises instead of
proceeding to a further attempt. -/
theorem C6_counterexample :
    ((send_sms (fun _ => envThrow) "x" "hello" false).1.map
        fun p => (p.1.count Act.keyBack, p.2))
      = [(3, AttemptResult.exn), (3, AttemptResult.exn), (0, AttemptResult.exn)]
    ∧ (send_sms (fun _ => envThrow) "x" "hello" false).2 = .error (failMsg "x") :=
  ⟨by decide, rfl⟩

/-- Claim C6 amended: for every NON-FINAL attempt of `send_sms` in which
an exception is raised, the exception is caught, exactly three raw
back-key events are issued, and a further attempt follows; when the
exception is raised on the final attempt it is still caught, but no
back-key event is issued and the call raises the failure error. -/
theorem C6_exception_unwind (envs envsF : Nat → AttemptEnv) (n m nF mF : String)
    (d dF : Bool) (i : Nat) (tr trF : List Act)
    (hi : i < max_retries - 1)
    (h : (send_sms envs n m d).1.get? i = some (tr, AttemptResult.exn))
    (hF : (send_sms envsF nF mF dF).1.get? (max_retries - 1)
      = some (trF, AttemptResult.exn)) :
    tr.count Act.keyBack = 3
    ∧ i + 1 < (send_sms envs n m d).1.length
    ∧ trF.count Act.keyBack = 0
    ∧ (send_sms envsF nF mF dF).2 = .error (failMsg nF) := by
  have hmain := send_sms_go_exn_entry envs n m d max_retries 0 i tr rfl h
  have hfin := send_sms_go_exn_entry envsF nF mF dF max_retries 0 (max_retries - 1) trF rfl hF
  have hlast := send_sms_go_exn_last envsF nF mF dF max_retries 0 (max_retries - 1) trF
    (by simp [max_retries]) hF
  obtain ⟨c3, hl⟩ := hmain.1 (by simpa using hi)
  exact ⟨c3, hl, hfin.2 (by simp [max_retries]), hlast⟩

/-- Witness for the amended C6: every attempt throws before its first
action, so attempt 1 (index 0) unwinds with three back keys and the final
attempt issues none. -/
theorem C6_exception_unwind_witness :
    retryUnwind.count Act.keyBack = 3
    ∧ 0 + 1 < (send_sms (fun _ => envThrow) "x" "hello" false).1.length
    ∧ ([] : List Act).count Act.keyBack = 0
    ∧ (send_sms (fun _ => envThrow) "x" "hello" false).2 = .error (failMsg "x") :=
  C6_exception_unwind (fun _ => envThrow) (fun _ => envThrow) "x" "hello" "x" "hello"
    false false 0 retryUnwind [] (by decide) (by decide) (by decide)

/-! ## C7 — `go_back_to_main_screen` -/

/-- Claim C7: `go_back_to_main_screen` issues exactly 2 back-navigation
actions (each a tap on a visible Back affordance or a hardware back key)
before its landmark check, returns exactly whether the landmark was found,
and never raises: on an unexpected error it cuts the navigation off,
issues two raw back-key events and returns false. -/
theorem C7_returnToHome (e eF : NavEnv) (k : Nat)
    (he : e.exnAfter = none) (heF : eF.exnAfter = some k)
    (hk : k < (goBackCore eF).1.length) :
    backNavBefore (go_back_to_main_screen e).1 = 2
    ∧ (go_back_to_main_screen e).2 = (e.startChatById || e.startChatByText)
    ∧ (go_back_to_main_screen eF).2 = false
    ∧ (go_back_to_main_screen eF).1
      = (goBackCore eF).1.take k
        ++ [Act.keyBack, Act.sleep 2000, Act.keyBack, Act.sleep 2000] := by
  refine ⟨?_, ?_, ?_, ?_⟩
  · rcases e with ⟨b1, b2, s1, s2, ex⟩
    change ex = none at he
    subst he
    cases b1 <;> cases b2 <;> cases s1 <;> cases s2 <;> decide
  · simp [go_back_to_main_screen, goBackCore, he]
  · simp [go_back_to_main_screen, heF, hk]
  · simp [go_back_to_main_screen, heF, hk]

/-- Witness for C7: a clean navigation environment and one that throws
after 3 actions. -/
theorem C7_returnToHome_witness :
    backNavBefore (go_back_to_main_screen {}).1 = 2
    ∧ (go_back_to_main_screen {}).2
      = (NavEnv.startChatById {} || NavEnv.startChatByText {})
    ∧ (go_back_to_main_screen { exnAfter := some 3 }).2 = false
    ∧ (go_back_to_main_screen { exnAfter := some 3 }).1
      = (goBackCore { exnAfter := some 3 }).1.take 3
        ++ [Act.keyBack, Act.sleep 2000, Act.keyBack, Act.sleep 2000] :=
  C7_returnToHome {} { exnAfter := some 3 } 3 rfl rfl (by decide)

/-! ## C8 — draft mode never touches the send path -/

/-- Claim C8: when draft mode is on, no attempt of `send_sms` ever
performs the send-affordance lookup, taps the send button, or issues the
fallback send key event — for every recipient, message and device
behaviour. -/
theorem C8_draft_mode (envs : Nat → AttemptEnv) (n m : String) :
    ∀ p ∈ (send_sms envs n m true).1,
      Act.findSendButton ∉ p.1 ∧ Act.touchSendButton ∉ p.1
      ∧ Act.keyEnterSendFallback ∉ p.1 :=
  send_sms_go_draft_noSend envs n m max_retries 0

/-- Witness for C8 at a concrete clean run in draft mode. -/
theorem C8_draft_mode_witness :
    Act.findSendButton
      ∉ ((send_sms (fun _ => {}) "x" "hello" true).1.headD ([], AttemptResult.success)).1
    ∧ Act.touchSendButton
      ∉ ((send_sms (fun _ => {}) "x" "hello" true).1.headD ([], AttemptResult.success)).1
    ∧ Act.keyEnterSendFallback
      ∉ ((send_sms (fun _ => {}) "x" "hello" true).1.headD ([], AttemptResult.success)).1 :=
  C8_draft_mode (fun _ => {}) "x" "hello"
    ((send_sms (fun _ => {}) "x" "hello" true).1.headD ([], AttemptResult.success))
    (by decide)

/-! ## C2 — the orchestrator survives per-recipient failures -/

/-- Claim C2: on a run whose startup succeeded, the orchestrator returns
normally (never a process exit code) no matter how many recipients fail;
every recipient produces exactly one send event, so a raising recipient
does not stop the loop; the tally counts exactly the successful sends; and
each failing recipient leaves the log-failure / return-to-home / pause
block in the event stream. -/
theorem C2_orchestrator_resilience (parse : String → Option String)
    (nf cf : Option (List String)) (draft delete : Bool) (delay : Nat)
    (envs : Nat → RecipEnv) (nums : List String) (message : String)
    (h1 : get_phone_numbers parse nf = .ok nums)
    (h2 : get_message cf = .ok message) :
    main_run parse nf cf true draft delete delay envs
      = .ok ((mainLoop draft delete delay message envs nums 0).1,
          (nums.enumFrom 0).countP (sendOkFor envs message draft), nums.length)
    ∧ ((mainLoop draft delete delay message envs nums 0).1.countP isSendEvent) = nums.length
    ∧ ∀ p ∈ nums.enumFrom 0, sendOkFor envs message draft p = false →
        containsBlock [MainEv.sendFailed p.2, MainEv.goBack, MainEv.recoverPause]
          (mainLoop draft delete delay message envs nums 0).1 := by
  obtain ⟨hs1, hs2, _, hs4⟩ := mainLoop_spec draft delete delay message envs nums 0
  refine ⟨?_, hs2, hs4⟩
  simp [main_run, startup, h1, h2, hs1]

/-- Witness for C2: five recipients with recipient 2 permanently failing;
the run returns normally and the tally is 4 of 5. -/
theorem C2_orchestrator_resilience_witness :
    (main_run parseId (some ["b", "a", "c", "e", "d"]) (some ["hi"]) true false false 0
        envsOneFailing
      = .ok ((mainLoop false false 0 "hi" envsOneFailing ["a", "b", "c", "d", "e"] 0).1,
          ((["a", "b", "c", "d", "e"].enumFrom 0).countP (sendOkFor envsOneFailing "hi" false)),
          (["a", "b", "c", "d", "e"] : List String).length)
      ∧ ((mainLoop false false 0 "hi" envsOneFailing ["a", "b", "c", "d", "e"] 0).1.countP
          isSendEvent) = (["a", "b", "c", "d", "e"] : List String).length
      ∧ ∀ p ∈ (["a", "b", "c", "d", "e"] : List String).enumFrom 0,
          sendOkFor envsOneFailing "hi" false p = false →
          containsBlock [MainEv.sendFailed p.2, MainEv.goBack, MainEv.recoverPause]
            (mainLoop false false 0 "hi" envsOneFailing ["a", "b", "c", "d", "e"] 0).1)
    ∧ ((["a", "b", "c", "d", "e"].enumFrom 0).countP (sendOkFor envsOneFailing "hi" false) = 4
        ∧ (["a", "b", "c", "d", "e"] : List String).length = 5) :=
  ⟨C2_orchestrator_resilience parseId (some ["b", "a", "c", "e", "d"]) (some ["hi"])
      false false 0 envsOneFailing ["a", "b", "c", "d", "e"] "hi" rfl rfl,
    by decide, rfl⟩

/-! ## C9 — deletion exactly after successful sends, and best-effort -/

/-- Claim C9: the orchestrator performs the conversation deletion exactly
once per successful send when delete mode is on and never when it is off;
and inside `delete_last_sms` every missing affordance (conversation row,
delete button, confirmation) and every exception ends in a logged-warning
outcome and a normal return, never a raised error. -/
theorem C9_delete_mode (draft : Bool) (delay : Nat) (message : String)
    (envs : Nat → RecipEnv) (nums : List String)
    (e1 e2 e3 e4 : DelEnv) (k : Nat)
    (h1 : e1.lastChat = false) (h1e : e1.exnAfter = none)
    (h2 : e2.lastChat = true) (h2d : e2.deleteButton = false) (h2e : e2.exnAfter = none)
    (h3 : e3.lastChat = true) (h3d : e3.deleteButton = true) (h3c : e3.confirmButton = false)
    (h3e : e3.exnAfter = none)
    (h4 : e4.exnAfter = some k) (hk : k < (deleteCore e4).1.length) :
    (mainLoop draft true delay message envs nums 0).1.count MainEv.deleteConv
      = (nums.enumFrom 0).countP (sendOkFor envs message draft)
    ∧ (mainLoop draft false delay message envs nums 0).1.count MainEv.deleteConv = 0
    ∧ (delete_last_sms e1).2 = DelOutcome.warnNoChat
    ∧ (delete_last_sms e2).2 = DelOutcome.warnNoDelete
    ∧ (delete_last_sms e3).2 = DelOutcome.warnNoConfirm
    ∧ (delete_last_sms e4).2 = DelOutcome.warnError := by
  refine ⟨?_, ?_, ?_, ?_, ?_, ?_⟩
  · simpa using (mainLoop_spec draft true delay message envs nums 0).2.2.1
  · simpa using (mainLoop_spec draft false delay message envs nums 0).2.2.1
  · simp [delete_last_sms, deleteCore, h1, h1e]
  · simp [delete_last_sms, deleteCore, h2, h2d, h2e]
  · simp [delete_last_sms, deleteCore, h3, h3d, h3c, h3e]
  · simp [delete_last_sms, h4, hk]

/-- Witness for C9: a concrete run with one failing recipient, and the
four degraded deletion environments. -/
theorem C9_delete_mode_witness :
    (mainLoop false true 0 "hi" envsOneFailing ["a", "b", "c"] 0).1.count MainEv.deleteConv
      = ((["a", "b", "c"] : List String).enumFrom 0).countP (sendOkFor envsOneFailing "hi" false)
    ∧ (mainLoop false false 0 "hi" envsOneFailing ["a", "b", "c"] 0).1.count
        MainEv.deleteConv = 0
    ∧ (delete_last_sms { lastChat := false }).2 = DelOutcome.warnNoChat
    ∧ (delete_last_sms { deleteButton := false }).2 = DelOutcome.warnNoDelete
    ∧ (delete_last_sms { confirmButton := false }).2 = DelOutcome.warnNoConfirm
    ∧ (delete_last_sms { exnAfter := some 0 }).2 = DelOutcome.warnError :=
  C9_delete_mode false 0 "hi" envsOneFailing ["a", "b", "c"]
    { lastChat := false } { deleteButton := false } { confirmButton := false }
    { exnAfter := some 0 } 0
    rfl rfl rfl rfl rfl rfl rfl rfl rfl rfl (by decide)

/-! ## C10 — the failure path skips cleanup and the delay -/

/-- Claim C10: for a recipient whose `send_sms` raises, the loop body
performs only the failure log, the recovery navigation to the home screen
and the one-second pause: no conversation deletion (even with delete mode
on) and no inter-message delay. -/
theorem C10_failure_path (draft delete : Bool) (delay : Nat)
    (num message : String) (env : RecipEnv) (isLast : Bool) (msg : String)
    (h : (send_sms env.send num message draft).2 = .error msg) :
    (processRecipient draft delete delay num message env isLast).1
      = [MainEv.sendFailed num, MainEv.goBack, MainEv.recoverPause]
    ∧ MainEv.deleteConv ∉ (processRecipient draft delete delay num message env isLast).1
    ∧ ∀ d, MainEv.delayWait d
      ∉ (processRecipient draft delete delay num message env isLast).1 := by
  have hb : (processRecipient draft delete delay num message env isLast).1
      = [MainEv.sendFailed num, MainEv.goBack, MainEv.recoverPause] := by
    simp [processRecipient, h]
  refine ⟨hb, ?_, ?_⟩
  · rw [hb]; simp
  · intro dd; rw [hb]; simp

/-- Witness for C10: a recipient whose start-chat lookup never resolves,
with delete mode on and not the last recipient. -/
theorem C10_failure_path_witness :
    (processRecipient false true 5 "x" "hello"
        { send := fun _ => envNoStartChat } false).1
      = [MainEv.sendFailed "x", MainEv.goBack, MainEv.recoverPause]
    ∧ MainEv.deleteConv ∉ (processRecipient false true 5 "x" "hello"
        { send := fun _ => envNoStartChat } false).1
    ∧ ∀ d, MainEv.delayWait d ∉ (processRecipient false true 5 "x" "hello"
        { send := fun _ => envNoStartChat } false).1 :=
  C10_failure_path false true 5 "x" "hello" { send := fun _ => envNoStartChat } false
    (failMsg "x") rfl

end BulkSms
